import Mathlib

/-!
Verification of the Timeframe Resolution and Series Analytics Engine of
`src/src/App.js` (a React stock-portfolio tracker), as a shallow embedding.

Modelling conventions, used throughout:
* A JavaScript number that can be `NaN` is modelled as `JSNum := Option ℚ`,
  with `none` standing for a non-finite result (`NaN`; the one division in
  scope can also produce `Infinity`, likewise modelled as `none`).
* A field of a raw series point holds the parse result of the upstream
  string: `none` = the key is absent (`undefined` in JS); `some none` =
  present but unparsable (`parseFloat`/`parseInt` yields `NaN`);
  `some (some q)` = parses to the number `q`.  A present field is modelled
  as truthy (upstream field strings are non-empty).
* Date/time strings are modelled as integers (`Int`), ordered as the
  corresponding `Date` values compare in JS; the calendar arithmetic on
  `new Date()` (24h / 5d / month / year offsets, start of year) is
  modelled as an environment `TimeEnv` holding the cutoff instants that
  the code computes from the current time.
* A JS object keyed by date strings (`timeSeries`) is an association list
  `List (Int × RawSeriesPoint)` in insertion order (`Object.keys` order);
  keys are unique in the upstream payload.
* A thrown exception is an `Except.error`; statements that cannot throw
  are plain functions.
-/

/-- A JS number: `none` = non-finite (`NaN`, or the non-finite result of a
division by zero), `some q` = the finite value `q`. -/
abbrev JSNum := Option ℚ

/-- NaN-propagating addition (`a + b` in JS). -/
def jsAdd (a b : JSNum) : JSNum :=
  match a, b with
  | some x, some y => some (x + y)
  | _, _ => none

/-- NaN-propagating subtraction (`a - b` in JS). -/
def jsSub (a b : JSNum) : JSNum :=
  match a, b with
  | some x, some y => some (x - y)
  | _, _ => none

/-- NaN-propagating multiplication (`a * b` in JS). -/
def jsMul (a b : JSNum) : JSNum :=
  match a, b with
  | some x, some y => some (x * y)
  | _, _ => none

/-- Division (`a / b` in JS).  A zero divisor yields a non-finite value
(`Infinity` or `NaN`), modelled as `none`. -/
def jsDiv (a b : JSNum) : JSNum :=
  match a, b with
  | some x, some y => if y = 0 then none else some (x / y)
  | _, _ => none

/-- `Math.min(a, b)`: `NaN` if either argument is `NaN`. -/
def jsMin (a b : JSNum) : JSNum :=
  match a, b with
  | some x, some y => some (min x y)
  | _, _ => none

/-- `Math.max(a, b)`: `NaN` if either argument is `NaN`. -/
def jsMax (a b : JSNum) : JSNum :=
  match a, b with
  | some x, some y => some (max x y)
  | _, _ => none

/-- `Math.min(...l)` for a non-empty list `l` (the `[]` case is junk and is
never reached: every use in the source is guarded by a length check). -/
def jsMinList : List JSNum → JSNum
  | [] => none
  | [x] => x
  | x :: y :: xs => jsMin x (jsMinList (y :: xs))

/-- `Math.max(...l)` for a non-empty list `l` (the `[]` case is junk and is
never reached: every use in the source is guarded by a length check). -/
def jsMaxList : List JSNum → JSNum
  | [] => none
  | [x] => x
  | x :: y :: xs => jsMax x (jsMaxList (y :: xs))

/-- `parseFloat(f)` (resp. `parseInt(f)`) applied to a raw field:
`parseFloat(undefined)` is `NaN` (`none`); a present field evaluates to its
stored parse result. -/
def parseNum (f : Option JSNum) : JSNum :=
  match f with
  | none => none
  | some v => v

/-- `parseInt(f || 0)`: an absent (`undefined`, falsy) field falls back to
`0`; a present field is truthy and evaluates to its stored parse result. -/
def parseNumOrZero (f : Option JSNum) : JSNum :=
  match f with
  | none => some 0
  | some v => v

/-- One raw series point.  Fields correspond to the upstream positional
keys: `openPrice` ↦ "1. open", `high` ↦ "2. high", `low` ↦ "3. low",
`close` ↦ "4. close", `adjClose` ↦ "5. adjusted close",
`volume5` ↦ "5. volume" (unadjusted series), `volume6` ↦ "6. volume"
(adjusted series), `dividendAmount` ↦ "7. dividend amount",
`splitCoefficient` ↦ "8. split coefficient".  Each field holds the parse
result of the upstream string per the conventions above. -/
structure RawSeriesPoint where
  openPrice : Option JSNum
  high : Option JSNum
  low : Option JSNum
  close : Option JSNum
  adjClose : Option JSNum
  volume5 : Option JSNum
  volume6 : Option JSNum
  dividendAmount : Option JSNum
  splitCoefficient : Option JSNum
deriving DecidableEq

/-- The volume field selector: `"5. volume"` or `"6. volume"`
(`const volumeKey = endpoint.includes('ADJUSTED') ? '6. volume' : '5. volume'`). -/
inductive VolumeKey
  | vol5
  | vol6
deriving DecidableEq

/-- `dataPoint[volumeKey]`. -/
def RawSeriesPoint.volAt (p : RawSeriesPoint) : VolumeKey → Option JSNum
  | VolumeKey.vol5 => p.volume5
  | VolumeKey.vol6 => p.volume6

/-- The raw time series: a JS object keyed by date strings, modelled as an
association list in `Object.keys` insertion order (the upstream delivers
newest-first). -/
abbrev TimeSeries := List (Int × RawSeriesPoint)

/-- `l.slice(-n)`: the last `n` elements (the whole list when it is
shorter). -/
def sliceLast (n : Nat) (l : List α) : List α := l.drop (l.length - n)

/-- `calculatePercentageChange(timeSeries, dates)` (App.js lines 930-945):
returns `0` when fewer than 2 dates or when either endpoint's record is
missing from the map; otherwise `((last - first) / first) * 100` on the
parsed `"4. close"` fields, with NaN propagation. -/
def calculatePercentageChange (timeSeries : TimeSeries) (dates : List Int) : JSNum :=
  if dates.length < 2 then some 0
  else
    match List.lookup (dates.getD 0 0) timeSeries,
          List.lookup (dates.getD (dates.length - 1) 0) timeSeries with
    | some firstData, some lastData =>
        jsMul
          (jsDiv (jsSub (parseNum lastData.close) (parseNum firstData.close))
            (parseNum firstData.close))
          (some 100)
    | _, _ => some 0

/-- The statistics bundle returned by `computeDetailedStats`.  Each field is
`Option JSNum`: `none` = JS `null`, `some none` = `NaN`, `some (some q)` =
the finite value `q`. -/
structure DetailedStats where
  previousClose : Option JSNum
  openPrice : Option JSNum
  dayLow : Option JSNum
  dayHigh : Option JSNum
  volume : Option JSNum
  adjustedClose : Option JSNum
  dividendAmount : Option JSNum
  splitCoefficient : Option JSNum
  weekLow : Option JSNum
  weekHigh : Option JSNum
  avgVolume : Option JSNum
deriving DecidableEq

/-- The all-`null` statistics bundle returned when `dates.length < 2`. -/
def nullStats : DetailedStats :=
  { previousClose := none, openPrice := none, dayLow := none, dayHigh := none,
    volume := none, adjustedClose := none, dividendAmount := none,
    splitCoefficient := none, weekLow := none, weekHigh := none, avgVolume := none }

/-- One step of the `avgVolume` reduce:
`sum + parseInt(timeSeries[date][volumeKey] || 0)`.  A date absent from the
map makes `timeSeries[date]` `undefined` and the member access throw
(`Except.error ()` models the TypeError). -/
def volumeTermF (volumeKey : VolumeKey) (timeSeries : TimeSeries) (sum : JSNum) (d : Int) :
    Except Unit JSNum :=
  match List.lookup d timeSeries with
  | none => Except.error ()
  | some p => Except.ok (jsAdd sum (parseNumOrZero (p.volAt volumeKey)))

/-- `latestData = timeSeries[dates[dates.length - 1]]` (App.js line 1296). -/
def latestOf (timeSeries : TimeSeries) (dates : List Int) : Option RawSeriesPoint :=
  List.lookup (dates.getD (dates.length - 1) 0) timeSeries

/-- `previousData = timeSeries[dates[dates.length - 2]]` (App.js line 1297). -/
def previousOf (timeSeries : TimeSeries) (dates : List Int) : Option RawSeriesPoint :=
  List.lookup (dates.getD (dates.length - 2) 0) timeSeries

/-- The `weekLow` computation (App.js lines 1323-1328): minimum of the
parsed `"3. low"` over `past52Weeks = Object.keys(timeSeries).slice(-260)`,
`null` when that slice is empty. -/
def weekLowOf (timeSeries : TimeSeries) : Option JSNum :=
  if 0 < (sliceLast 260 timeSeries).length then
    some (jsMinList ((sliceLast 260 timeSeries).map (fun p => parseNum p.2.low)))
  else none

/-- The `weekHigh` computation (App.js lines 1330-1333): maximum of the
parsed `"2. high"` over the same last-260-keys slice, `null` when empty. -/
def weekHighOf (timeSeries : TimeSeries) : Option JSNum :=
  if 0 < (sliceLast 260 timeSeries).length then
    some (jsMaxList ((sliceLast 260 timeSeries).map (fun p => parseNum p.2.high)))
  else none

/-- The `avgVolume` computation (App.js lines 1336-1340):
`dates.reduce((sum, date) => sum + parseInt(timeSeries[date][volumeKey] || 0), 0)
/ dates.length` when `dates` is non-empty, else `null`.  The reduce throws
(TypeError) when a date is absent from the map. -/
def avgVolumeOf (timeSeries : TimeSeries) (dates : List Int) (volumeKey : VolumeKey) :
    Except Unit (Option JSNum) :=
  if 0 < dates.length then
    (dates.foldlM (volumeTermF volumeKey timeSeries) (some 0)).map
      (fun sum => some (jsDiv sum (some (dates.length : ℚ))))
  else Except.ok none

/-- `computeDetailedStats(timeSeries, dates, volumeKey)` (App.js lines
1279-1355).  Returns all-`null` fields when the windowed `dates` has fewer
than 2 entries; otherwise derives the statistics from the last and
second-to-last windowed points, the last 260 keys of the raw map
(`Object.keys(timeSeries).slice(-260)`), and the volume average over the
windowed dates.  The only possible throw is the unguarded
`timeSeries[date][volumeKey]` access inside the `avgVolume` reduce. -/
def computeDetailedStats (timeSeries : TimeSeries) (dates : List Int) (volumeKey : VolumeKey) :
    Except Unit DetailedStats :=
  if dates.length < 2 then Except.ok nullStats
  else
    match avgVolumeOf timeSeries dates volumeKey with
    | Except.error e => Except.error e
    | Except.ok avgVolume =>
        Except.ok
          { previousClose := (previousOf timeSeries dates).map (fun p => parseNum p.close),
            openPrice := (latestOf timeSeries dates).map (fun p => parseNum p.openPrice),
            dayLow := (latestOf timeSeries dates).map (fun p => parseNum p.low),
            dayHigh := (latestOf timeSeries dates).map (fun p => parseNum p.high),
            volume := (latestOf timeSeries dates).map (fun p => parseNum (p.volAt volumeKey)),
            adjustedClose := (latestOf timeSeries dates).bind (fun p => p.adjClose),
            dividendAmount := (latestOf timeSeries dates).bind (fun p => p.dividendAmount),
            splitCoefficient := (latestOf timeSeries dates).bind (fun p => p.splitCoefficient),
            weekLow := weekLowOf timeSeries,
            weekHigh := weekHighOf timeSeries,
            avgVolume := avgVolume }

/-- The upstream endpoint identifiers (`function=` values) used by
`getTimeFrameParams`. -/
inductive Endpoint
  | intraday
  | daily
  | dailyAdjusted
  | weekly
  | weeklyAdjusted
  | monthly
  | monthlyAdjusted
deriving DecidableEq

/-- `endpoint.includes('ADJUSTED')`. -/
def endpointHasAdjusted : Endpoint → Bool
  | Endpoint.dailyAdjusted => true
  | Endpoint.weeklyAdjusted => true
  | Endpoint.monthlyAdjusted => true
  | _ => false

/-- `timeSeriesKeyMap[endpoint]` (App.js lines 984-992), with the intraday
key interpolating the interval. -/
def timeSeriesKey (endpoint : Endpoint) (interval : String) : String :=
  match endpoint with
  | Endpoint.intraday => "Time Series (" ++ interval ++ ")"
  | Endpoint.daily => "Time Series (Daily)"
  | Endpoint.dailyAdjusted => "Time Series (Daily)"
  | Endpoint.weekly => "Weekly Time Series"
  | Endpoint.weeklyAdjusted => "Weekly Adjusted Time Series"
  | Endpoint.monthly => "Monthly Time Series"
  | Endpoint.monthlyAdjusted => "Monthly Adjusted Time Series"

/-- The `dateRange` value set by `getTimeFrameParams`: it is only ever
`undefined` or `Infinity` in the source. -/
inductive DateRange
  | undef
  | infin
deriving DecidableEq

/-- The parameter record returned by `getTimeFrameParams`. -/
structure TimeFrameParams where
  endpoint : Endpoint
  interval : String
  timeUnit : String
  dateRange : DateRange
  ticks : Nat
deriving DecidableEq

/-- The enumerated timeframe labels. -/
def validTimeFrames : List String := ["1D", "5D", "1M", "6M", "YTD", "1Y", "5Y", "ALL"]

/-- `getTimeFrameParams(timeFrame)` (App.js lines 1195-1265).
`currentMonth` models `new Date().getMonth()` read in the `YTD` branch.
Throws (`Except.error`) `'Invalid time frame: ' + timeFrame` on any label
outside the enumerated set. -/
def getTimeFrameParams (currentMonth : Nat) (timeFrame : String) :
    Except String TimeFrameParams :=
  if timeFrame = "1D" then
    Except.ok ⟨Endpoint.intraday, "15min", "hour", DateRange.undef, 24⟩
  else if timeFrame = "5D" then
    Except.ok ⟨Endpoint.intraday, "60min", "day", DateRange.undef, 5⟩
  else if timeFrame = "1M" then
    Except.ok ⟨Endpoint.dailyAdjusted, "", "day", DateRange.undef, 22⟩
  else if timeFrame = "6M" then
    Except.ok ⟨Endpoint.dailyAdjusted, "", "month", DateRange.undef, 6⟩
  else if timeFrame = "YTD" then
    Except.ok ⟨Endpoint.weeklyAdjusted, "", "month", DateRange.undef, currentMonth + 1⟩
  else if timeFrame = "1Y" then
    Except.ok ⟨Endpoint.weeklyAdjusted, "", "month", DateRange.undef, 12⟩
  else if timeFrame = "5Y" then
    Except.ok ⟨Endpoint.weeklyAdjusted, "", "year", DateRange.undef, 5⟩
  else if timeFrame = "ALL" then
    Except.ok ⟨Endpoint.monthlyAdjusted, "", "year", DateRange.infin, 20⟩
  else
    Except.error ("Invalid time frame: " ++ timeFrame)

/-- The date-window cutoff instants that `fetchStockData` computes from
`new Date()`: `past24Hours`, `past5Days`, `past1Month`, `past6Months`,
`startOfYear`, `past1Year`, `past5Years` (App.js lines 1005-1071). -/
structure TimeEnv where
  past24Hours : Int
  past5Days : Int
  past1Month : Int
  past6Months : Int
  startOfYear : Int
  past1Year : Int
  past5Years : Int
deriving DecidableEq

/-- The cutoff instant the windowing block compares against for each
date-cutoff label (used to state properties of `computeDates`). -/
def cutoffFor (env : TimeEnv) : String → Int
  | "1D" => env.past24Hours
  | "5D" => env.past5Days
  | "1M" => env.past1Month
  | "6M" => env.past6Months
  | "YTD" => env.startOfYear
  | "1Y" => env.past1Year
  | "5Y" => env.past5Years
  | _ => 0

/-- The dates-windowing block of `fetchStockData` (App.js lines 1002-1077):
per-label date filtering (`date >= cutoff`) followed by `.reverse()` into
chronological order; `1D` alone falls back to `allDates.slice(0, 96)` when
the filter yields nothing; `ALL` reverses everything; the final `else`
(unreachable for valid labels) slices by `dateRange`. -/
def computeDates (env : TimeEnv) (timeFrame : String) (dateRange : DateRange)
    (allDates : List Int) : List Int :=
  if timeFrame = "1D" then
    if ((allDates.filter (fun d => decide (env.past24Hours ≤ d))).reverse).length = 0 then
      (allDates.take 96).reverse
    else (allDates.filter (fun d => decide (env.past24Hours ≤ d))).reverse
  else if timeFrame = "5D" then
    (allDates.filter (fun d => decide (env.past5Days ≤ d))).reverse
  else if timeFrame = "1M" then
    (allDates.filter (fun d => decide (env.past1Month ≤ d))).reverse
  else if timeFrame = "6M" then
    (allDates.filter (fun d => decide (env.past6Months ≤ d))).reverse
  else if timeFrame = "YTD" then
    (allDates.filter (fun d => decide (env.startOfYear ≤ d))).reverse
  else if timeFrame = "1Y" then
    (allDates.filter (fun d => decide (env.past1Year ≤ d))).reverse
  else if timeFrame = "5Y" then
    (allDates.filter (fun d => decide (env.past5Years ≤ d))).reverse
  else if timeFrame = "ALL" then
    allDates.reverse
  else
    (match dateRange with
     | DateRange.infin => allDates
     | DateRange.undef => allDates).reverse

/-- The upstream collaborator as seen by one request:
`bestMatches query` is the `bestMatches` array of the symbol-search
response (entries are `(symbol, name)` pairs drawn from `'1. symbol'` and
`'2. name'`); `seriesResp endpoint symbol key` is the time-series response
payload looked up at the top-level key `key` (`none` when the key is
absent, e.g. a rate-limit notice payload).  The overview response carries
only supplementary display fields used by no claim, so its content is not
modelled; the overview request itself is (see `ApiCall`). -/
structure Upstream where
  bestMatches : String → List (String × String)
  seriesResp : Endpoint → String → String → Option TimeSeries

/-- One network call performed by a request, in order. -/
inductive ApiCall
  | search (query : String)
  | series (endpoint : Endpoint) (symbol : String)
  | overview (symbol : String)
deriving DecidableEq

/-- `searchSymbol(apiKey, query)` (App.js lines 1147-1159): throws when
`bestMatches` is missing or empty, else returns the first match's symbol
and name. -/
def searchSymbol (up : Upstream) (query : String) : Except String (String × String) :=
  match up.bestMatches query with
  | [] => Except.error ("No matches found for symbol \"" ++ query ++ "\"")
  | m :: _ => Except.ok m

/-- The wrapper applied by `fetchStockData`'s catch block:
`'Could not fetch data for "query": ' + message`. -/
def fetchErrorMsg (query msg : String) : String :=
  "Could not fetch data for \"" ++ query ++ "\": " ++ msg

/-- The (modelled) message of a TypeError thrown by a member access on
`undefined` (e.g. `timeSeries[dates[dates.length - 1]]['4. close']` when
`dates` is empty). -/
def typeErrorMsg : String := "TypeError"

/-- The assembled result of `fetchStockData` (the fields the engine
computes; the overview-derived display fields, used by no claim, are
omitted).  The statistics bundle is kept nested where the source spreads
its fields into the result object. -/
structure StockData where
  symbol : String
  name : String
  latestDate : Int
  price : JSNum
  changePercent : JSNum
  dates : List Int
  timeSeries : TimeSeries
  timeUnit : String
  ticks : Nat
  volumeKey : VolumeKey
  stats : DetailedStats
deriving DecidableEq

/-- `fetchStockData({apiKey, query, timeFrame})` (App.js lines 960-1134),
returning the result (or wrapped error) together with the list of network
calls performed, in order.  The call order mirrors the source: symbol
search first, then timeframe-parameter resolution (which throws before any
further call on an invalid label), then the time-series fetch, the
windowing block, the overview fetch, the statistics, and finally the
result object whose `price` field dereferences the last windowed date
(throwing a TypeError when the windowed series is empty). -/
def fetchStockData (up : Upstream) (env : TimeEnv) (currentMonth : Nat)
    (query timeFrame : String) : Except String StockData × List ApiCall :=
  let calls1 := [ApiCall.search query]
  match searchSymbol up query with
  | Except.error e => (Except.error (fetchErrorMsg query e), calls1)
  | Except.ok (symbol, name) =>
    match getTimeFrameParams currentMonth timeFrame with
    | Except.error e => (Except.error (fetchErrorMsg query e), calls1)
    | Except.ok params =>
      let volumeKey :=
        if endpointHasAdjusted params.endpoint then VolumeKey.vol6 else VolumeKey.vol5
      let calls2 := calls1 ++ [ApiCall.series params.endpoint symbol]
      match up.seriesResp params.endpoint symbol (timeSeriesKey params.endpoint params.interval) with
      | none =>
          (Except.error
            (fetchErrorMsg query ("Time series data unavailable for \"" ++ timeFrame ++ "\".")),
           calls2)
      | some timeSeries =>
        let allDates := timeSeries.map Prod.fst
        let dates := computeDates env timeFrame params.dateRange allDates
        let calls3 := calls2 ++ [ApiCall.overview symbol]
        match computeDetailedStats timeSeries dates volumeKey with
        | Except.error _ => (Except.error (fetchErrorMsg query typeErrorMsg), calls3)
        | Except.ok stats =>
          match dates.getLast? with
          | none => (Except.error (fetchErrorMsg query typeErrorMsg), calls3)
          | some lastDate =>
            match List.lookup lastDate timeSeries with
            | none => (Except.error (fetchErrorMsg query typeErrorMsg), calls3)
            | some lastP =>
                (Except.ok
                  { symbol, name, latestDate := lastDate, price := parseNum lastP.close,
                    changePercent := calculatePercentageChange timeSeries dates,
                    dates, timeSeries, timeUnit := params.timeUnit, ticks := params.ticks,
                    volumeKey, stats },
                 calls3)

/-- `NUM_STOCKS` (App.js line 27). -/
def NUM_STOCKS : Nat := 10

/-- JS array index assignment `a[i] = v`: overwrites in range, extends the
array with holes (`undef`) past the end.  For the stock-slot array both
`null` and a hole are modelled as `none`. -/
def jsSetIndex (l : List α) (i : Nat) (v : α) (undef : α) : List α :=
  if i < l.length then l.set i v
  else l ++ List.replicate (i - l.length) undef ++ [v]

/-- The initial stock-slot array `Array(NUM_STOCKS).fill(null)`
(App.js line 39). -/
def initialStockSymbols : List (Option StockData) := List.replicate NUM_STOCKS none

/-- The updater passed to `setStockSymbols` by `handleRemoveStock`
(App.js lines 488-494): copy the array and null out the slot. -/
def handleRemoveStock (prevSymbols : List (Option StockData)) (slotId : Nat) :
    List (Option StockData) :=
  jsSetIndex prevSymbols slotId none none

/-- The updater passed to `setStockSymbols` by `loadStoredStocks`
(App.js lines 583-589): copy the previous array, then write the first
`NUM_STOCKS` parsed entries at indices `0, 1, ...`.  (The surrounding
guards — missing storage, parse failure, non-array payload — leave the
state untouched and are outside this updater.) -/
def loadStoredStocks (prev : List (Option StockData)) (parsedStocks : List (Option StockData)) :
    List (Option StockData) :=
  ((parsedStocks.take NUM_STOCKS).enum).foldl
    (fun acc p => jsSetIndex acc p.1 p.2 none) prev

/-- JS `String.prototype.toUpperCase()` for the ASCII symbol strings in
scope, character by character.  (Defined here because the library string
functions are opaque to kernel reduction.) -/
def jsToUpper (s : String) : String := String.mk (s.data.map Char.toUpper)

/-- JS `String.prototype.trim()`: strip leading and trailing whitespace. -/
def jsTrim (s : String) : String :=
  String.mk
    (((s.data.dropWhile fun c => c.isWhitespace).reverse.dropWhile
      (fun c => c.isWhitespace)).reverse)

/-- The duplicate check of `addOrReplaceStock`:
`stockSymbols.some((stock, index) => stock && stock.symbol === inputSymbol
&& index !== currentSlot)`. -/
def hasDuplicate (stockSymbols : List (Option StockData)) (inputSymbol : String)
    (currentSlot : Nat) : Bool :=
  stockSymbols.enum.any (fun p =>
    match p.2 with
    | some stock => stock.symbol == inputSymbol && p.1 != currentSlot
    | none => false)

/-- The outcome of one `addOrReplaceStock` invocation: the resulting slot
array, whether `fetchStockData` was invoked, and the alert message (empty
when none). -/
structure AddOrReplaceResult where
  stockSymbols : List (Option StockData)
  fetchPerformed : Bool
  resultMessage : String
deriving DecidableEq

/-- `addOrReplaceStock({...})` (App.js lines 440-477).  The awaited result
of the `fetchStockData` call is passed in as `fetchOutcome` (it is only
consulted on the path that actually performs the fetch).  JS
`trim().toUpperCase()` is modelled by `jsTrim`/`jsToUpper`
(symbols are ASCII). -/
def addOrReplaceStock (stockInput : String) (stockSymbols : List (Option StockData))
    (currentSlot : Nat) (fetchOutcome : Except String StockData) : AddOrReplaceResult :=
  let inputSymbol := jsToUpper (jsTrim stockInput)
  if inputSymbol = "" then
    { stockSymbols, fetchPerformed := false,
      resultMessage := "Please enter a valid stock symbol." }
  else if hasDuplicate stockSymbols inputSymbol currentSlot then
    { stockSymbols, fetchPerformed := false,
      resultMessage := "Duplicate stock symbol in another slot." }
  else
    match fetchOutcome with
    | Except.ok stockData =>
        if stockData.symbol = inputSymbol then
          { stockSymbols := jsSetIndex stockSymbols currentSlot (some stockData) none,
            fetchPerformed := true, resultMessage := "" }
        else
          { stockSymbols, fetchPerformed := true,
            resultMessage := "No data found for the provided stock symbol." }
    | Except.error e =>
        { stockSymbols, fetchPerformed := true,
          resultMessage := "Error fetching stock data: " ++ e }

/-- A fully parsable fixture point with the given open/high/low/close and
(unadjusted) volume. -/
def fixPoint (o h l c v : ℚ) : RawSeriesPoint :=
  { openPrice := some (some o), high := some (some h), low := some (some l),
    close := some (some c), adjClose := none, volume5 := some (some v),
    volume6 := none, dividendAmount := none, splitCoefficient := none }

/-- C6 fixture: closes `[100, 110, 90]`, highs/lows `[105/95, 115/105,
95/85]` oldest-to-newest, keys delivered newest-first. -/
def c6ts : TimeSeries :=
  [(3, fixPoint 0 95 85 90 10), (2, fixPoint 0 115 105 110 10), (1, fixPoint 0 105 95 100 10)]

/-- C6 fixture windowed dates, chronological. -/
def c6dates : List Int := [1, 2, 3]

/-- C1 fixture: the newest raw point, with the extreme low/high of the
series. -/
def c1NewPoint : RawSeriesPoint := fixPoint 55 200 1 55 10

/-- C1 fixture: each of the 260 older raw points. -/
def c1OldPoint : RawSeriesPoint := fixPoint 55 60 50 55 10

/-- C1 fixture: the older points with dates `n-1, n-2, ..., 0`
(newest-first), all equal to `c1OldPoint`. -/
def descendingOldPoints : Nat → TimeSeries
  | 0 => []
  | n + 1 => ((n : Int), c1OldPoint) :: descendingOldPoints n

/-- C1 fixture: a 261-point raw series delivered newest-first (dates
`260, 259, ..., 0`); only the newest point attains low `1` / high `200`. -/
def c1ts : TimeSeries := (260, c1NewPoint) :: descendingOldPoints 260

/-- C1 fixture windowed dates: the two most recent points, chronological. -/
def c1dates : List Int := [259, 260]

/-- A fixture upstream whose symbol search always finds `("Q", "Q Corp")`
and whose series fetch returns a notice payload (no series key). -/
def exUpstream : Upstream :=
  { bestMatches := fun _ => [("Q", "Q Corp")], seriesResp := fun _ _ _ => none }

/-- A fixture cutoff environment with every cutoff at `0`. -/
def exEnv : TimeEnv := ⟨0, 0, 0, 0, 0, 0, 0⟩

/-- C3 fixture environment: the 5-day cutoff is `100`, so a raw point at
date `0` falls outside the 5-day window. -/
def c3Env : TimeEnv := ⟨0, 100, 0, 0, 0, 0, 0⟩

/-- C4 fixture: a point whose `"4. close"` is present but unparsable
(`parseFloat` yields `NaN`). -/
def c4BadPoint : RawSeriesPoint :=
  { openPrice := some (some 1), high := some (some 1), low := some (some 1),
    close := some none, adjClose := none, volume5 := some (some 1), volume6 := none,
    dividendAmount := none, splitCoefficient := none }

/-- C4 fixture: a 2-point series (newest-first) whose oldest point has an
unparsable close. -/
def c4ts : TimeSeries := [(2, fixPoint 0 1 1 90 10), (1, c4BadPoint)]

/-- C4 fixture windowed dates, chronological. -/
def c4dates : List Int := [1, 2]

/-- C8 fixture: a point with no volume field at all. -/
def c8NoVolPoint : RawSeriesPoint :=
  { openPrice := some (some 1), high := some (some 1), low := some (some 1),
    close := some (some 1), adjClose := none, volume5 := none, volume6 := none,
    dividendAmount := none, splitCoefficient := none }

/-- C8 fixture: a 2-point series (newest-first); the older point is missing
its volume field. -/
def c8ts : TimeSeries := [(2, fixPoint 0 1 1 5 100), (1, c8NoVolPoint)]

/-- C8 fixture windowed dates, chronological. -/
def c8dates : List Int := [1, 2]

/-- A fixture assembled stock record (symbol `"AAPL"`). -/
def exStockData : StockData :=
  { symbol := "AAPL", name := "Apple Inc.", latestDate := 0, price := some 1,
    changePercent := some 0, dates := [], timeSeries := [], timeUnit := "day",
    ticks := 1, volumeKey := VolumeKey.vol5, stats := nullStats }

/-- The per-date term of the volume mean, as the spec states it: a missing
volume field (or a date absent from the map) contributes `0`; a present
field contributes its parsed value. -/
def specVolumeTerm (timeSeries : TimeSeries) (volumeKey : VolumeKey) (d : Int) : JSNum :=
  match List.lookup d timeSeries with
  | none => some 0
  | some p => parseNumOrZero (p.volAt volumeKey)

theorem jsMin_self (x : JSNum) : jsMin x x = x := by
  cases x <;> simp [jsMin]

theorem jsMax_self (x : JSNum) : jsMax x x = x := by
  cases x <;> simp [jsMax]

theorem jsMinList_replicate (n : Nat) (x : JSNum) :
    jsMinList (List.replicate (n + 1) x) = x := by
  induction n with
  | zero => rfl
  | succ n ih =>
      rw [List.replicate_succ, List.replicate_succ]
      show jsMin x (jsMinList (x :: List.replicate n x)) = x
      rw [← List.replicate_succ, ih, jsMin_self]

theorem jsMaxList_replicate (n : Nat) (x : JSNum) :
    jsMaxList (List.replicate (n + 1) x) = x := by
  induction n with
  | zero => rfl
  | succ n ih =>
      rw [List.replicate_succ, List.replicate_succ]
      show jsMax x (jsMaxList (x :: List.replicate n x)) = x
      rw [← List.replicate_succ, ih, jsMax_self]

theorem foldlM_volumeTerm_ok (volumeKey : VolumeKey) (timeSeries : TimeSeries)
    (dates : List Int) :
    ∀ init : JSNum, (∀ d ∈ dates, (List.lookup d timeSeries).isSome) →
      dates.foldlM (volumeTermF volumeKey timeSeries) init =
        Except.ok
          (dates.foldl (fun s d => jsAdd s (specVolumeTerm timeSeries volumeKey d)) init) := by
  induction dates with
  | nil => intro init _; rfl
  | cons d ds ih =>
      intro init h
      obtain ⟨p, hp⟩ := Option.isSome_iff_exists.mp (h d (by simp))
      have hstep : volumeTermF volumeKey timeSeries init d =
          Except.ok (jsAdd init (parseNumOrZero (p.volAt volumeKey))) := by
        unfold volumeTermF
        rw [hp]
      have hterm : specVolumeTerm timeSeries volumeKey d =
          parseNumOrZero (p.volAt volumeKey) := by
        unfold specVolumeTerm
        rw [hp]
      show (volumeTermF volumeKey timeSeries init d >>= fun b =>
          ds.foldlM (volumeTermF volumeKey timeSeries) b) = _
      rw [hstep]
      show ds.foldlM (volumeTermF volumeKey timeSeries)
          (jsAdd init (parseNumOrZero (p.volAt volumeKey))) = _
      rw [ih _ (fun x hx => h x (List.mem_cons_of_mem d hx)), List.foldl_cons, hterm]

theorem avgVolumeOf_ok (timeSeries : TimeSeries) (dates : List Int) (volumeKey : VolumeKey)
    (h0 : 0 < dates.length) (hlk : ∀ d ∈ dates, (List.lookup d timeSeries).isSome) :
    avgVolumeOf timeSeries dates volumeKey =
      Except.ok
        (some (jsDiv
          (dates.foldl (fun s d => jsAdd s (specVolumeTerm timeSeries volumeKey d)) (some 0))
          (some (dates.length : ℚ)))) := by
  unfold avgVolumeOf
  rw [if_pos h0, foldlM_volumeTerm_ok volumeKey timeSeries dates (some 0) hlk]
  rfl

theorem computeDetailedStats_eq_of_avg (timeSeries : TimeSeries) (dates : List Int)
    (volumeKey : VolumeKey) (avgVolume : Option JSNum) (h2 : ¬ dates.length < 2)
    (havg : avgVolumeOf timeSeries dates volumeKey = Except.ok avgVolume) :
    computeDetailedStats timeSeries dates volumeKey =
      Except.ok
        { previousClose := (previousOf timeSeries dates).map (fun p => parseNum p.close),
          openPrice := (latestOf timeSeries dates).map (fun p => parseNum p.openPrice),
          dayLow := (latestOf timeSeries dates).map (fun p => parseNum p.low),
          dayHigh := (latestOf timeSeries dates).map (fun p => parseNum p.high),
          volume := (latestOf timeSeries dates).map (fun p => parseNum (p.volAt volumeKey)),
          adjustedClose := (latestOf timeSeries dates).bind (fun p => p.adjClose),
          dividendAmount := (latestOf timeSeries dates).bind (fun p => p.dividendAmount),
          splitCoefficient := (latestOf timeSeries dates).bind (fun p => p.splitCoefficient),
          weekLow := weekLowOf timeSeries, weekHigh := weekHighOf timeSeries,
          avgVolume := avgVolume } := by
  unfold computeDetailedStats
  rw [if_neg h2, havg]

theorem descendingOldPoints_length (n : Nat) : (descendingOldPoints n).length = n := by
  induction n with
  | zero => rfl
  | succ n ih => simp [descendingOldPoints, ih]

theorem descendingOldPoints_map_low (n : Nat) :
    (descendingOldPoints n).map (fun p => parseNum p.2.low) =
      List.replicate n (some 50) := by
  induction n with
  | zero => rfl
  | succ n ih =>
      show parseNum c1OldPoint.low :: (descendingOldPoints n).map (fun p => parseNum p.2.low) = _
      rw [ih, List.replicate_succ]
      rfl

theorem descendingOldPoints_map_high (n : Nat) :
    (descendingOldPoints n).map (fun p => parseNum p.2.high) =
      List.replicate n (some 60) := by
  induction n with
  | zero => rfl
  | succ n ih =>
      show parseNum c1OldPoint.high :: (descendingOldPoints n).map (fun p => parseNum p.2.high) = _
      rw [ih, List.replicate_succ]
      rfl

theorem descendingOldPoints_take_map_low (n : Nat) :
    ∀ m : Nat, ((descendingOldPoints n).take m).map (fun p => parseNum p.2.low) =
      List.replicate (min m n) (some 50) := by
  induction n with
  | zero => intro m; simp [descendingOldPoints]
  | succ n ih =>
      intro m
      cases m with
      | zero => rfl
      | succ m =>
          rw [Nat.succ_min_succ, List.replicate_succ]
          show (parseNum c1OldPoint.low) :: ((descendingOldPoints n).take m).map
              (fun p => parseNum p.2.low) = _
          rw [ih m]
          rfl

theorem descendingOldPoints_take_map_high (n : Nat) :
    ∀ m : Nat, ((descendingOldPoints n).take m).map (fun p => parseNum p.2.high) =
      List.replicate (min m n) (some 60) := by
  induction n with
  | zero => intro m; simp [descendingOldPoints]
  | succ n ih =>
      intro m
      cases m with
      | zero => rfl
      | succ m =>
          rw [Nat.succ_min_succ, List.replicate_succ]
          show (parseNum c1OldPoint.high) :: ((descendingOldPoints n).take m).map
              (fun p => parseNum p.2.high) = _
          rw [ih m]
          rfl

theorem c1ts_length : c1ts.length = 261 := by
  show (descendingOldPoints 260).length + 1 = 261
  rw [descendingOldPoints_length]

theorem c1_sliceLast : sliceLast 260 c1ts = descendingOldPoints 260 := by
  show c1ts.drop (c1ts.length - 260) = _
  rw [c1ts_length]
  rfl

theorem c1_weekLow : weekLowOf c1ts = some (some 50) := by
  unfold weekLowOf
  rw [c1_sliceLast, descendingOldPoints_map_low, descendingOldPoints_length]
  rw [if_pos (by norm_num)]
  rw [show (260 : Nat) = 259 + 1 from rfl, jsMinList_replicate]

theorem c1_weekHigh : weekHighOf c1ts = some (some 60) := by
  unfold weekHighOf
  rw [c1_sliceLast, descendingOldPoints_map_high, descendingOldPoints_length]
  rw [if_pos (by norm_num)]
  rw [show (260 : Nat) = 259 + 1 from rfl, jsMaxList_replicate]

theorem c1_recent_min :
    jsMinList ((c1ts.take 260).map (fun p => parseNum p.2.low)) = some 1 := by
  show jsMinList ((parseNum c1NewPoint.low) ::
      ((descendingOldPoints 260).take 259).map (fun p => parseNum p.2.low)) = some 1
  rw [descendingOldPoints_take_map_low]
  rw [show min 259 260 = 258 + 1 from rfl, List.replicate_succ]
  show jsMin (parseNum c1NewPoint.low)
      (jsMinList (List.replicate (258 + 1) (some 50))) = some 1
  rw [jsMinList_replicate]
  show some (min 1 50) = some 1
  norm_num

theorem c1_recent_max :
    jsMaxList ((c1ts.take 260).map (fun p => parseNum p.2.high)) = some 200 := by
  show jsMaxList ((parseNum c1NewPoint.high) ::
      ((descendingOldPoints 260).take 259).map (fun p => parseNum p.2.high)) = some 200
  rw [descendingOldPoints_take_map_high]
  rw [show min 259 260 = 258 + 1 from rfl, List.replicate_succ]
  show jsMax (parseNum c1NewPoint.high)
      (jsMaxList (List.replicate (258 + 1) (some 60))) = some 200
  rw [jsMaxList_replicate]
  show some (max 200 60) = some 200
  norm_num

/-- C5: on a windowed series of length 0 or 1 (`dates.length < 2`), the
statistics computation returns every field `null` and does not throw. -/
theorem computeDetailedStats_short_all_null (timeSeries : TimeSeries) (dates : List Int)
    (volumeKey : VolumeKey) (h : dates.length < 2) :
    computeDetailedStats timeSeries dates volumeKey =
      Except.ok
        { previousClose := none, openPrice := none, dayLow := none, dayHigh := none,
          volume := none, adjustedClose := none, dividendAmount := none,
          splitCoefficient := none, weekLow := none, weekHigh := none, avgVolume := none } := by
  unfold computeDetailedStats
  rw [if_pos h]
  rfl

/-- Witness for C5 at a concrete one-point windowed series over a non-empty
raw map. -/
theorem computeDetailedStats_short_all_null_witness :
    computeDetailedStats c6ts [1] VolumeKey.vol5 =
      Except.ok
        { previousClose := none, openPrice := none, dayLow := none, dayHigh := none,
          volume := none, adjustedClose := none, dividendAmount := none,
          splitCoefficient := none, weekLow := none, weekHigh := none, avgVolume := none } :=
  computeDetailedStats_short_all_null c6ts [1] VolumeKey.vol5 (by decide)

/-- C6: on the synthetic 3-point windowed series with closes
`[100, 110, 90]` and highs/lows `[105/95, 115/105, 95/85]` (oldest to
newest), the statistics computation yields `previousClose = 110`,
`dayHigh = 95`, `dayLow = 85`, and `percentChange = -10`. -/
theorem computeDetailedStats_synthetic_three_points :
    Except.map DetailedStats.previousClose (computeDetailedStats c6ts c6dates VolumeKey.vol5) =
      Except.ok (some (some 110)) ∧
    Except.map DetailedStats.dayHigh (computeDetailedStats c6ts c6dates VolumeKey.vol5) =
      Except.ok (some (some 95)) ∧
    Except.map DetailedStats.dayLow (computeDetailedStats c6ts c6dates VolumeKey.vol5) =
      Except.ok (some (some 85)) ∧
    calculatePercentageChange c6ts c6dates = some (-10) := by
  refine ⟨rfl, rfl, rfl, ?_⟩
  have h : calculatePercentageChange c6ts c6dates = some ((90 - 100) / 100 * 100 : ℚ) := rfl
  rw [h]
  norm_num

set_option maxRecDepth 4000 in
/-- C1 (code bug evaluation): on the 261-point newest-first raw series
`c1ts` — whose most recent 260 points attain minimum low `1` and maximum
high `200`, while its oldest 260 points only span lows `50` and highs
`60` — the code's `Object.keys(timeSeries).slice(-260)` selects the
*oldest* 260 points, so `weekLow`/`weekHigh` come out as `50`/`60` instead
of the `1`/`200` over the most recent 260 points that the claim (and the
code's own `past52Weeks` intent) requires. -/
theorem computeDetailedStats_week_range_uses_oldest_points :
    Except.map DetailedStats.weekLow (computeDetailedStats c1ts c1dates VolumeKey.vol5) =
      Except.ok (some (some 50)) ∧
    Except.map DetailedStats.weekHigh (computeDetailedStats c1ts c1dates VolumeKey.vol5) =
      Except.ok (some (some 60)) ∧
    jsMinList ((c1ts.take 260).map (fun p => parseNum p.2.low)) = some 1 ∧
    jsMaxList ((c1ts.take 260).map (fun p => parseNum p.2.high)) = some 200 := by
  have havg := avgVolumeOf_ok c1ts c1dates VolumeKey.vol5 (by decide) (by decide)
  have hstats := computeDetailedStats_eq_of_avg c1ts c1dates VolumeKey.vol5 _ (by decide) havg
  refine ⟨?_, ?_, c1_recent_min, c1_recent_max⟩
  · rw [hstats]
    show Except.ok (weekLowOf c1ts) = _
    rw [c1_weekLow]
  · rw [hstats]
    show Except.ok (weekHighOf c1ts) = _
    rw [c1_weekHigh]

theorem getTimeFrameParams_invalid (currentMonth : Nat) (timeFrame : String)
    (h : timeFrame ∉ validTimeFrames) :
    getTimeFrameParams currentMonth timeFrame =
      Except.error ("Invalid time frame: " ++ timeFrame) := by
  simp only [validTimeFrames, List.mem_cons, List.not_mem_nil, or_false, not_or] at h
  obtain ⟨h1, h2, h3, h4, h5, h6, h7, h8⟩ := h
  unfold getTimeFrameParams
  rw [if_neg h1, if_neg h2, if_neg h3, if_neg h4, if_neg h5, if_neg h6, if_neg h7, if_neg h8]

/-- C2 counterexample: with timeframe label `"2W"`, `fetchStockData`
does fail with the invalid-timeframe error, but the network-call trace is
non-empty when the failure is raised: the symbol-search call has already
been performed, contradicting "no network call is performed before that
failure". -/
theorem fetchStockData_searches_before_invalid_timeframe :
    (fetchStockData exUpstream exEnv 0 "Q" "2W").1 =
      Except.error (fetchErrorMsg "Q" "Invalid time frame: 2W") ∧
    (fetchStockData exUpstream exEnv 0 "Q" "2W").2 ≠ [] := by
  refine ⟨rfl, ?_⟩
  show ([ApiCall.search "Q"] : List ApiCall) ≠ []
  simp

/-- C2 (amended): for every timeframe label outside the enumerated set
and every query the upstream search can resolve, the request fails with
the invalid-timeframe error, but the symbol-search network call is
performed before that failure is raised; no time-series or overview call
is made. -/
theorem fetchStockData_invalid_timeframe (up : Upstream) (env : TimeEnv) (currentMonth : Nat)
    (query timeFrame : String) (hm : up.bestMatches query ≠ [])
    (htf : timeFrame ∉ validTimeFrames) :
    fetchStockData up env currentMonth query timeFrame =
      (Except.error (fetchErrorMsg query ("Invalid time frame: " ++ timeFrame)),
       [ApiCall.search query]) := by
  obtain ⟨m, rest, hbm⟩ := List.exists_cons_of_ne_nil hm
  have hs : searchSymbol up query = Except.ok m := by
    unfold searchSymbol
    rw [hbm]
  unfold fetchStockData
  rw [hs, getTimeFrameParams_invalid currentMonth timeFrame htf]

/-- Witness for C2 (amended) at a concrete upstream, query and the label
`"2W"`. -/
theorem fetchStockData_invalid_timeframe_witness :
    fetchStockData exUpstream exEnv 0 "Q" "2W" =
      (Except.error (fetchErrorMsg "Q" ("Invalid time frame: " ++ "2W")),
       [ApiCall.search "Q"]) :=
  fetchStockData_invalid_timeframe exUpstream exEnv 0 "Q" "2W" (by simp [exUpstream]) (by decide)

/-- C3 counterexample: for the date-cutoff label `"5D"` with a non-empty
raw series entirely older than the 5-day cutoff, the date filter yields
zero points and the windowing step returns the empty list — no fallback to
a fixed count of recent points occurs for any label other than `"1D"`. -/
theorem computeDates_5D_empty_window_no_fallback :
    computeDates c3Env "5D" DateRange.undef [0] = [] ∧
    ([0] : List Int).filter (fun d => decide (cutoffFor c3Env "5D" ≤ d)) = [] ∧
    ([0] : List Int) ≠ [] := by
  refine ⟨by decide, by decide, by simp⟩

/-- C3 (amended): only the `"1D"` timeframe falls back (to the most recent
96 raw points, reversed) when its date filter yields zero points; for the
other date-cutoff labels (`5D`, `1M`, `6M`, `YTD`, `1Y`, `5Y`) a filter
that yields zero points produces an empty windowed series even though the
raw series is non-empty (the request then fails downstream). -/
theorem computeDates_fallback_only_1D (env : TimeEnv) (timeFrame : String) (allDates : List Int)
    (htf : timeFrame ∈ ["5D", "1M", "6M", "YTD", "1Y", "5Y"])
    (hemp : allDates.filter (fun d => decide (cutoffFor env timeFrame ≤ d)) = []) :
    computeDates env timeFrame DateRange.undef allDates = [] ∧
    (allDates ≠ [] → computeDates env "1D" DateRange.undef allDates ≠ []) := by
  constructor
  · fin_cases htf <;> simp only [cutoffFor] at hemp <;> simp [computeDates, hemp]
  · intro hne
    unfold computeDates
    rw [if_pos rfl]
    by_cases hf :
        ((allDates.filter (fun d => decide (env.past24Hours ≤ d))).reverse).length = 0
    · rw [if_pos hf]
      simp only [ne_eq, List.reverse_eq_nil_iff, List.take_eq_nil_iff]
      push_neg
      exact ⟨by norm_num, hne⟩
    · rw [if_neg hf]
      intro hcon
      rw [hcon] at hf
      exact hf rfl

/-- Witness for C3 (amended) at the concrete `"5D"` counterexample
input. -/
theorem computeDates_fallback_only_1D_witness :
    computeDates c3Env "5D" DateRange.undef [0] = [] ∧
    (([0] : List Int) ≠ [] → computeDates c3Env "1D" DateRange.undef [0] ≠ []) :=
  computeDates_fallback_only_1D c3Env "5D" [0] (by decide) (by decide)

/-- C7: for every timeframe label (in particular every valid one), every
`dateRange` and every raw key sequence delivered newest-first
(non-increasing), the windowed date sequence produced by the windowing
step is chronologically non-decreasing. -/
theorem computeDates_chronological (env : TimeEnv) (timeFrame : String) (dateRange : DateRange)
    (allDates : List Int) (h : allDates.Sorted (fun a b => b ≤ a)) :
    (computeDates env timeFrame dateRange allDates).Sorted (· ≤ ·) := by
  have hrev : ∀ l : List Int, l.Sublist allDates → (l.reverse).Sorted (· ≤ ·) := by
    intro l hsl
    rw [List.Sorted, List.pairwise_reverse]
    exact List.Pairwise.sublist hsl h
  unfold computeDates
  split
  · split
    · exact hrev _ (List.take_sublist _ _)
    · exact hrev _ (List.filter_sublist _)
  · split
    · exact hrev _ (List.filter_sublist _)
    · split
      · exact hrev _ (List.filter_sublist _)
      · split
        · exact hrev _ (List.filter_sublist _)
        · split
          · exact hrev _ (List.filter_sublist _)
          · split
            · exact hrev _ (List.filter_sublist _)
            · split
              · exact hrev _ (List.filter_sublist _)
              · split
                · exact hrev _ (List.Sublist.refl _)
                · split <;> exact hrev _ (List.Sublist.refl _)

/-- Witness for C7 at a concrete newest-first raw key sequence and the
`"ALL"` label. -/
theorem computeDates_chronological_witness :
    (computeDates exEnv "ALL" DateRange.infin [3, 2, 1]).Sorted (· ≤ ·) :=
  computeDates_chronological exEnv "ALL" DateRange.infin [3, 2, 1] (by decide)

/-- C4 counterexample: a 2-point windowed series whose first endpoint's
close is present but unparsable makes `calculatePercentageChange` return
`NaN` (the `parseFloat` result propagates), not the `0` the claim
states. -/
theorem calculatePercentageChange_unparsable_close_is_nan :
    c4BadPoint.close = some none ∧
    calculatePercentageChange c4ts c4dates = none ∧
    calculatePercentageChange c4ts c4dates ≠ some 0 := by
  refine ⟨rfl, rfl, ?_⟩
  decide

/-- C4 (amended): the percent change is `0` when the windowed series has
fewer than 2 points or when either endpoint's record is missing from the
series map; when both endpoint records exist and both closes parse (and
the first close is non-zero) it equals
`(lastClose - firstClose) / firstClose * 100`; an unparsable endpoint
close instead yields `NaN` (see the counterexample). -/
theorem calculatePercentageChange_spec (timeSeries : TimeSeries) (dates : List Int) :
    (dates.length < 2 → calculatePercentageChange timeSeries dates = some 0) ∧
    (List.lookup (dates.getD 0 0) timeSeries = none ∨
        List.lookup (dates.getD (dates.length - 1) 0) timeSeries = none →
      calculatePercentageChange timeSeries dates = some 0) ∧
    (∀ firstData lastData a b,
      2 ≤ dates.length →
      List.lookup (dates.getD 0 0) timeSeries = some firstData →
      List.lookup (dates.getD (dates.length - 1) 0) timeSeries = some lastData →
      parseNum firstData.close = some a →
      parseNum lastData.close = some b →
      a ≠ 0 →
      calculatePercentageChange timeSeries dates = some ((b - a) / a * 100)) := by
  unfold calculatePercentageChange
  refine ⟨fun h => by rw [if_pos h], fun h => ?_, ?_⟩
  · by_cases h2 : dates.length < 2
    · rw [if_pos h2]
    · rw [if_neg h2]
      rcases h with h1 | h1
      · rw [h1]
      · rw [h1]
        cases List.lookup (dates.getD 0 0) timeSeries <;> rfl
  · intro firstData lastData a b h2 hf hl ha hb hane
    rw [if_neg (by omega), hf, hl]
    show jsMul
        (jsDiv (jsSub (parseNum lastData.close) (parseNum firstData.close))
          (parseNum firstData.close))
        (some 100) = some ((b - a) / a * 100)
    rw [ha, hb]
    simp only [jsSub, jsDiv, jsMul, if_neg hane]

/-- Witness for C4 (amended) at concrete inputs: the short-series case and
the parsable two-endpoint case (closes 100 then 90 give `-10`). -/
theorem calculatePercentageChange_spec_witness :
    calculatePercentageChange c6ts [1] = some 0 ∧
    calculatePercentageChange c6ts c6dates = some ((90 - 100) / 100 * 100) :=
  ⟨(calculatePercentageChange_spec c6ts [1]).1 (by decide),
   (calculatePercentageChange_spec c6ts c6dates).2.2 (fixPoint 0 105 95 100 10)
     (fixPoint 0 95 85 90 10) 100 90 (by decide) (by rfl) (by rfl) (by rfl) (by rfl)
     (by norm_num)⟩

/-- C8: for every windowed series with at least 2 points (all of whose
dates have entries in the raw map, as every windowed series produced by
the engine does), `avgVolume` is the arithmetic mean of the selected
volume field over the windowed series: the sum of the per-date terms
(`specVolumeTerm`, which contributes `0` for a missing volume field)
divided by the full windowed length — missing-volume points still count
in the divisor. -/
theorem avgVolume_is_mean (timeSeries : TimeSeries) (dates : List Int) (volumeKey : VolumeKey)
    (h2 : 2 ≤ dates.length) (hlk : ∀ d ∈ dates, (List.lookup d timeSeries).isSome) :
    Except.map DetailedStats.avgVolume (computeDetailedStats timeSeries dates volumeKey) =
      Except.ok (some (jsDiv
        (dates.foldl (fun s d => jsAdd s (specVolumeTerm timeSeries volumeKey d)) (some 0))
        (some (dates.length : ℚ)))) := by
  rw [computeDetailedStats_eq_of_avg timeSeries dates volumeKey _ (by omega)
    (avgVolumeOf_ok timeSeries dates volumeKey (by omega) hlk)]
  rfl

/-- Witness for C8 at a concrete 2-point windowed series whose older point
is missing its volume field (it contributes `0` and still counts in the
divisor: the mean is `(0 + 100) / 2 = 50`). -/
theorem avgVolume_is_mean_witness :
    Except.map DetailedStats.avgVolume (computeDetailedStats c8ts c8dates VolumeKey.vol5) =
      Except.ok (some (jsDiv
        (c8dates.foldl (fun s d => jsAdd s (specVolumeTerm c8ts VolumeKey.vol5 d)) (some 0))
        (some (c8dates.length : ℚ)))) :=
  avgVolume_is_mean c8ts c8dates VolumeKey.vol5 (by decide) (by decide)

theorem jsSetIndex_length (l : List α) (i : Nat) (v u : α) (h : i < l.length) :
    (jsSetIndex l i v u).length = l.length := by
  unfold jsSetIndex
  rw [if_pos h, List.length_set]

theorem jsSetIndex_getElem (l : List α) (i : Nat) (v u : α) (h : i < l.length) :
    (jsSetIndex l i v u)[i]? = some v := by
  unfold jsSetIndex
  rw [if_pos h]
  exact List.getElem?_set_self h

theorem loadStoredStocks_aux (ts : List (Option StockData)) :
    ∀ (n : Nat) (acc : List (Option StockData)),
      n + ts.length ≤ acc.length →
      ((List.enumFrom n ts).foldl (fun a p => jsSetIndex a p.1 p.2 none) acc).length =
        acc.length := by
  induction ts with
  | nil => intro n acc _; rfl
  | cons x xs ih =>
      intro n acc h
      have hn : n < acc.length := by
        simp only [List.length_cons] at h
        omega
      show ((List.enumFrom (n + 1) xs).foldl (fun a p => jsSetIndex a p.1 p.2 none)
          (jsSetIndex acc n x none)).length = acc.length
      rw [ih (n + 1) (jsSetIndex acc n x none)
        (by rw [jsSetIndex_length acc n x none hn]; simp only [List.length_cons] at h; omega)]
      exact jsSetIndex_length acc n x none hn

theorem loadStoredStocks_length (prev : List (Option StockData))
    (parsed : List (Option StockData)) (h : prev.length = NUM_STOCKS) :
    (loadStoredStocks prev parsed).length = NUM_STOCKS := by
  have haux := loadStoredStocks_aux (parsed.take NUM_STOCKS) 0 prev
    (by simp only [Nat.zero_add, List.length_take]; omega)
  unfold loadStoredStocks
  exact haux.trans h

theorem addOrReplaceStock_length (stockInput : String) (s : List (Option StockData))
    (slot : Nat) (outcome : Except String StockData) (h : slot < s.length) :
    (addOrReplaceStock stockInput s slot outcome).stockSymbols.length = s.length := by
  unfold addOrReplaceStock
  by_cases he : jsToUpper (jsTrim stockInput) = ""
  · rw [if_pos he]
  · rw [if_neg he]
    by_cases hd : hasDuplicate s (jsToUpper (jsTrim stockInput)) slot = true
    · rw [if_pos hd]
    · rw [if_neg hd]
      cases outcome with
      | error e => rfl
      | ok sd =>
          dsimp only
          by_cases hs : sd.symbol = jsToUpper (jsTrim stockInput)
          · rw [if_pos hs]
            exact jsSetIndex_length s slot (some sd) none h
          · rw [if_neg hs]

/-- C9: the stock-slot array always has exactly `NUM_STOCKS = 10` entries:
it is initialized to 10 `null`s; removing a stock nulls its slot (the slot
reads back `null`) without changing the length; adding or replacing via
`addOrReplaceStock` preserves the length on every path; and loading from
persisted storage (which writes at most the first 10 stored entries)
preserves the length. -/
theorem stockSlots_always_ten (s : List (Option StockData)) (slot : Nat) (input : String)
    (outcome : Except String StockData) (parsed : List (Option StockData))
    (hs : s.length = NUM_STOCKS) (hslot : slot < NUM_STOCKS) :
    initialStockSymbols = List.replicate NUM_STOCKS none ∧
    initialStockSymbols.length = NUM_STOCKS ∧
    (handleRemoveStock s slot).length = NUM_STOCKS ∧
    (handleRemoveStock s slot)[slot]? = some none ∧
    (addOrReplaceStock input s slot outcome).stockSymbols.length = NUM_STOCKS ∧
    (loadStoredStocks s parsed).length = NUM_STOCKS := by
  have hlt : slot < s.length := by rw [hs]; exact hslot
  refine ⟨rfl, by simp [initialStockSymbols], ?_, ?_, ?_, loadStoredStocks_length s parsed hs⟩
  · show (jsSetIndex s slot none none).length = NUM_STOCKS
    rw [jsSetIndex_length s slot none none hlt]
    exact hs
  · show (jsSetIndex s slot none none)[slot]? = some none
    exact jsSetIndex_getElem s slot none none hlt
  · rw [addOrReplaceStock_length input s slot outcome hlt]
    exact hs

/-- Witness for C9 at the initial array, slot 3, a concrete fetched stock
and a one-entry stored list. -/
theorem stockSlots_always_ten_witness :
    initialStockSymbols = List.replicate NUM_STOCKS none ∧
    initialStockSymbols.length = NUM_STOCKS ∧
    (handleRemoveStock initialStockSymbols 3).length = NUM_STOCKS ∧
    (handleRemoveStock initialStockSymbols 3)[3]? = some none ∧
    (addOrReplaceStock "AAPL" initialStockSymbols 3
      (Except.ok exStockData)).stockSymbols.length = NUM_STOCKS ∧
    (loadStoredStocks initialStockSymbols [some exStockData]).length = NUM_STOCKS :=
  stockSlots_always_ten initialStockSymbols 3 "AAPL" (Except.ok exStockData)
    [some exStockData] (by decide) (by decide)

/-- C10: `addOrReplaceStock` leaves the slot array unchanged and performs
no fetch when the trimmed, uppercased input is empty or when the symbol
already occupies another slot; and whenever the slot array is modified,
the fetch was performed, succeeded, and returned a record whose symbol
equals the normalized input symbol. -/
theorem addOrReplaceStock_guards (input : String) (s : List (Option StockData)) (slot : Nat)
    (outcome : Except String StockData) :
    (jsToUpper (jsTrim input) = "" →
      (addOrReplaceStock input s slot outcome).stockSymbols = s ∧
      (addOrReplaceStock input s slot outcome).fetchPerformed = false) ∧
    (hasDuplicate s (jsToUpper (jsTrim input)) slot = true →
      (addOrReplaceStock input s slot outcome).stockSymbols = s ∧
      (addOrReplaceStock input s slot outcome).fetchPerformed = false) ∧
    ((addOrReplaceStock input s slot outcome).stockSymbols ≠ s →
      (addOrReplaceStock input s slot outcome).fetchPerformed = true ∧
      ∃ sd, outcome = Except.ok sd ∧ sd.symbol = jsToUpper (jsTrim input)) := by
  refine ⟨?_, ?_, ?_⟩
  · intro he
    unfold addOrReplaceStock
    rw [if_pos he]
    exact ⟨rfl, rfl⟩
  · intro hd
    unfold addOrReplaceStock
    by_cases he : jsToUpper (jsTrim input) = ""
    · rw [if_pos he]
      exact ⟨rfl, rfl⟩
    · rw [if_neg he, if_pos hd]
      exact ⟨rfl, rfl⟩
  · intro hmod
    unfold addOrReplaceStock at hmod ⊢
    by_cases he : jsToUpper (jsTrim input) = ""
    · rw [if_pos he] at hmod
      exact absurd rfl hmod
    · rw [if_neg he] at hmod ⊢
      by_cases hd : hasDuplicate s (jsToUpper (jsTrim input)) slot = true
      · rw [if_pos hd] at hmod
        exact absurd rfl hmod
      · rw [if_neg hd] at hmod ⊢
        cases outcome with
        | error e => exact absurd rfl hmod
        | ok sd =>
            dsimp only at hmod ⊢
            by_cases hsym : sd.symbol = jsToUpper (jsTrim input)
            · rw [if_pos hsym]
              exact ⟨rfl, sd, rfl, hsym⟩
            · rw [if_neg hsym] at hmod
              exact absurd rfl hmod

/-- Witness for C10 at concrete inputs: a whitespace-only input leaves the
initial array unchanged without fetching, and a duplicate symbol in
another slot does the same. -/
theorem addOrReplaceStock_guards_witness :
    ((addOrReplaceStock "  " initialStockSymbols 0
        (Except.ok exStockData)).stockSymbols = initialStockSymbols ∧
      (addOrReplaceStock "  " initialStockSymbols 0
        (Except.ok exStockData)).fetchPerformed = false) ∧
    ((addOrReplaceStock "AAPL" [some exStockData, none] 1
        (Except.ok exStockData)).stockSymbols = [some exStockData, none] ∧
      (addOrReplaceStock "AAPL" [some exStockData, none] 1
        (Except.ok exStockData)).fetchPerformed = false) :=
  ⟨(addOrReplaceStock_guards "  " initialStockSymbols 0 (Except.ok exStockData)).1 (by decide),
   (addOrReplaceStock_guards "AAPL" [some exStockData, none] 1
     (Except.ok exStockData)).2.1 (by decide)⟩
